import Mathlib

/-!
Verification development for the DeepResearch research-session orchestrator
and history store.  The definitions below are a shallow embedding of the
TypeScript source (`src/services/geminiService.ts`, `src/App.tsx`): strings
are Lean `String`s, JavaScript `undefined`/`null` become `Option`, thrown
exceptions become `Except` / an explicit "threw" flag, and the React state
plus the `localStorage` blob become an explicit record that each handler
transforms.
-/

set_option maxHeartbeats 1000000
set_option maxRecDepth 16384

namespace DeepResearch

/-! ### JavaScript string primitives used by the source -/

/-- The brace characters, named so they can be used in code without literal
brace tokens. -/
def lbrace : Char := Char.ofNat 123

def rbrace : Char := Char.ofNat 125

/-- JavaScript `String.prototype.trim` whitespace class (WhiteSpace and
LineTerminator code points; the ASCII ones plus NBSP, BOM and the Unicode
space separators). -/
def jsWhitespace (c : Char) : Bool :=
  c = ' ' || c = '\t' || c = '\n' || c = '\r' ||
  c = Char.ofNat 0x0b || c = Char.ofNat 0x0c || c = Char.ofNat 0xa0 ||
  c = Char.ofNat 0xfeff || c = Char.ofNat 0x1680 ||
  (0x2000 ≤ c.toNat && c.toNat ≤ 0x200a) ||
  c = Char.ofNat 0x2028 || c = Char.ofNat 0x2029 ||
  c = Char.ofNat 0x202f || c = Char.ofNat 0x205f || c = Char.ofNat 0x3000

/-- Model of `text.trim()`: drop leading and trailing whitespace. -/
def jsTrim (s : String) : String :=
  String.mk (((s.toList.dropWhile jsWhitespace).reverse.dropWhile jsWhitespace).reverse)

/-- Model of `text.indexOf(c)`: index of the first occurrence, `none` for `-1`. -/
def firstIdx (c : Char) : List Char → Option Nat
  | [] => none
  | d :: rest => if d = c then some 0 else (firstIdx c rest).map (· + 1)

/-- Model of `text.lastIndexOf(c)`: index of the last occurrence, `none` for `-1`. -/
def lastIdx (c : Char) (cs : List Char) : Option Nat :=
  match firstIdx c cs.reverse with
  | none => none
  | some k => some (cs.length - 1 - k)

/-- Truthiness of a JS string-or-undefined value: `undefined` and `""` are
falsy. -/
def jsFalsy : Option String → Bool
  | none => true
  | some s => s = ""

/-- Model of `x || d` for a string-or-undefined `x`. -/
def jsOr (x : Option String) (d : String) : String :=
  match x with
  | none => d
  | some s => if s = "" then d else s

/-- Interpolating a possibly-`undefined` string into a template literal:
`undefined` renders as the text `"undefined"`. -/
def jsInterp : Option String → String
  | none => "undefined"
  | some s => s

/-! ### Structured-output recovery (`cleanJson`, geminiService.ts lines 5–16) -/

/-- Model of `cleanJson`: slice from the first brace to the last brace inclusive;
if either is absent or the first `\x7b` comes after the last `\x7d`, fall
back to the trimmed text. -/
def cleanJson (text : String) : String :=
  let cs := text.toList
  match firstIdx lbrace cs, lastIdx rbrace cs with
  | some s, some e =>
      if s > e then jsTrim text
      else String.mk ((cs.drop s).take (e + 1 - s))
  | _, _ => jsTrim text

/-! ### A model of `JSON.parse`

`JSON.parse` accepts any JSON value at top level (object, array, string,
number, boolean, null), with JSON whitespace (space, tab, LF, CR) around
tokens, and throws on anything else.  Number and string tokens are kept as
their raw lexemes (the orchestrator never interprets them numerically, and
the surrounding theorems only compare parses of identical texts). -/

inductive Json where
  | null : Json
  | bool : Bool → Json
  | num : String → Json
  | str : String → Json
  | arr : List Json → Json
  | obj : List (String × Json) → Json
deriving Repr

/-- JSON whitespace: exactly space, tab, line feed, carriage return. -/
def jsonWs (c : Char) : Bool :=
  c = ' ' || c = '\t' || c = '\n' || c = '\r'

def skipWs (cs : List Char) : List Char := cs.dropWhile jsonWs

/-- Hexadecimal digit, for `\uXXXX` escapes. -/
def isHexCh (c : Char) : Bool :=
  c.isDigit || ('a' ≤ c && c ≤ 'f') || ('A' ≤ c && c ≤ 'F')

/-- Contents of a JSON string after the opening quote: ordinary characters
(no control characters) and the JSON escape sequences, returned raw
together with the input after the closing quote. -/
def parseStrRaw : List Char → Option (List Char × List Char)
  | [] => none
  | '"' :: rest => some ([], rest)
  | '\\' :: e :: rest =>
      if e = '"' || e = '\\' || e = '/' || e = 'b' || e = 'f' ||
         e = 'n' || e = 'r' || e = 't' then
        (parseStrRaw rest).map (fun p => ('\\' :: e :: p.1, p.2))
      else if e = 'u' then
        match rest with
        | h1 :: h2 :: h3 :: h4 :: rest2 =>
            if isHexCh h1 && isHexCh h2 && isHexCh h3 && isHexCh h4 then
              (parseStrRaw rest2).map
                (fun p => ('\\' :: 'u' :: h1 :: h2 :: h3 :: h4 :: p.1, p.2))
            else none
        | _ => none
      else none
  | c :: rest =>
      if c.toNat < 0x20 then none
      else (parseStrRaw rest).map (fun p => (c :: p.1, p.2))

/-- Longest prefix of decimal digits. -/
def spanDigits (cs : List Char) : List Char × List Char :=
  (cs.takeWhile Char.isDigit, cs.dropWhile Char.isDigit)

/-- Optional exponent part of a JSON number; `acc` is the lexeme so far. -/
def parseExp (acc : List Char) (cs : List Char) : Option (List Char × List Char) :=
  match cs with
  | c :: rest =>
      if c = 'e' || c = 'E' then
        let (es, cs2) :=
          match rest with
          | '+' :: r => (([c, '+'] : List Char), r)
          | '-' :: r => (([c, '-'] : List Char), r)
          | _ => ([c], rest)
        let (ds, cs3) := spanDigits cs2
        if ds = [] then none
        else some (acc ++ es ++ ds, cs3)
      else some (acc, cs)
  | [] => some (acc, cs)

/-- Optional fraction then exponent parts after the integer part `acc`. -/
def parseFracExp (acc : List Char) (cs : List Char) :
    Option (List Char × List Char) :=
  match cs with
  | '.' :: rest =>
      let (ds, cs3) := spanDigits rest
      if ds = [] then none else parseExp (acc ++ '.' :: ds) cs3
  | _ => parseExp acc cs

/-- A JSON number token: `-? (0 | [1-9][0-9]*) (. [0-9]+)? ([eE][+-]?[0-9]+)?`,
returned as its lexeme plus the rest of the input. -/
def parseNum (cs : List Char) : Option (List Char × List Char) :=
  let (sign, cs1) :=
    match cs with
    | '-' :: rest => ((['-'] : List Char), rest)
    | _ => ([], cs)
  match cs1 with
  | [] => none
  | c :: rest =>
      if c = '0' then
        parseFracExp (sign ++ ['0']) rest
      else if c.isDigit then
        let (ds, cs2) := spanDigits rest
        parseFracExp (sign ++ c :: ds) cs2
      else none

mutual

/-- Parse one JSON value (after skipping leading whitespace), fuel-bounded. -/
def parseVal : Nat → List Char → Option (Json × List Char)
  | 0, _ => none
  | fuel + 1, cs =>
    match skipWs cs with
    | [] => none
    | c :: rest =>
        if c = lbrace then
          match skipWs rest with
          | d :: rest2 =>
              if d = rbrace then some (.obj [], rest2)
              else (parseMembers fuel (d :: rest2)).map
                (fun p => (.obj p.1, p.2))
          | [] => none
        else if c = '[' then
          match skipWs rest with
          | ']' :: rest2 => some (.arr [], rest2)
          | other => (parseElems fuel other).map (fun p => (.arr p.1, p.2))
        else if c = '"' then
          (parseStrRaw rest).map (fun p => (.str (String.mk p.1), p.2))
        else if c = 't' then
          match rest with
          | 'r' :: 'u' :: 'e' :: r => some (.bool true, r)
          | _ => none
        else if c = 'f' then
          match rest with
          | 'a' :: 'l' :: 's' :: 'e' :: r => some (.bool false, r)
          | _ => none
        else if c = 'n' then
          match rest with
          | 'u' :: 'l' :: 'l' :: r => some (.null, r)
          | _ => none
        else if c = '-' || c.isDigit then
          (parseNum (c :: rest)).map (fun p => (.num (String.mk p.1), p.2))
        else none

/-- Parse the members of a non-empty object, consuming the closing brace. -/
def parseMembers : Nat → List Char → Option (List (String × Json) × List Char)
  | 0, _ => none
  | fuel + 1, cs =>
    match skipWs cs with
    | '"' :: rest =>
        match parseStrRaw rest with
        | none => none
        | some (key, rest2) =>
            match skipWs rest2 with
            | ':' :: rest3 =>
                match parseVal fuel rest3 with
                | none => none
                | some (v, rest4) =>
                    match skipWs rest4 with
                    | ',' :: rest5 =>
                        (parseMembers fuel rest5).map
                          (fun p => ((String.mk key, v) :: p.1, p.2))
                    | d :: rest5 =>
                        if d = rbrace then some ([(String.mk key, v)], rest5)
                        else none
                    | [] => none
            | _ => none
    | _ => none

/-- Parse the elements of a non-empty array, consuming the closing bracket. -/
def parseElems : Nat → List Char → Option (List Json × List Char)
  | 0, _ => none
  | fuel + 1, cs =>
    match parseVal fuel cs with
    | none => none
    | some (v, rest) =>
        match skipWs rest with
        | ',' :: rest2 => (parseElems fuel rest2).map (fun p => (v :: p.1, p.2))
        | ']' :: rest2 => some ([v], rest2)
        | _ => none

end

/-- Model of `JSON.parse`: parse one value and require only whitespace to remain.
`none` models a thrown `SyntaxError`. -/
def jsonParse (s : String) : Option Json :=
  match parseVal (2 * s.length + 2) s.toList with
  | some (v, rest) => if skipWs rest = [] then some v else none
  | none => none

/-! ### Data model (`src/types.ts` shapes, as used by the source) -/

structure Article where
  title : String
  authors : String
  journal : Option String
  publication_date : String
  ai_summary : String
  significance : String
  url : Option String
deriving DecidableEq, Repr

structure ResearchResult where
  topic : String
  summary : String
  suggestedVisualPrompt : String
  articles : List Article
deriving DecidableEq, Repr

/-- The per-session configuration.  At the TypeScript type level `focus` is
`'classic' | 'balanced' | 'recent'` and `language` is `'en' | 'zh' | 'ja'`;
they are modelled as runtime strings because unchecked values can reach them
(e.g. via the unvalidated `JSON.parse` of the persisted history blob). -/
structure ResearchConfig where
  focus : String
  count : Nat
  language : String
deriving DecidableEq, Repr

/-- One persisted session (`HistoryItem`).  Its `result` field holds whatever
`JSON.parse` produced (the source casts it to `ResearchResult` without
validation), so it is modelled as a raw `Json` value. -/
structure HistoryItem where
  id : String
  timestamp : Nat
  topic : String
  result : Json
  timelineImage : Option String
  literatureReview : Option String
  config : ResearchConfig
deriving Repr

/-! ### Configuration compiler (geminiService.ts lines 29–85) -/

/-- Model of `languageNames[l]`: the three-entry record; any other key reads as
`undefined` (`none`) — there is no default entry. -/
def languageNames (l : String) : Option String :=
  if l = "en" then some "English"
  else if l = "zh" then some "Chinese (Simplified)"
  else if l = "ja" then some "Japanese"
  else none

def classicFocusBlock : String :=
  "PRIORITY: FOCUS HEAVILY ON HISTORY.
      1. Identify the most seminal \"Foundational\" papers that started the field (the classics).
      2. Include a few recent papers only if they fundamentally changed the original paradigms.
      3. The list should be dominated by the most cited, historical works."

def recentFocusBlock : String :=
  "PRIORITY: FOCUS HEAVILY ON THE LAST 5 YEARS.
      1. Identify key \"Recent Breakthroughs\" or \"State of the Art\" papers primarily from 2020-2025.
      2. Only include the absolute most vital 1-2 historical papers for context.
      3. The list should be dominated by recent advancements."

def balancedFocusBlock : String :=
  "PRIORITY: BALANCE HISTORY AND MODERNITY.
      1. Identify the most seminal \"Foundational\" papers that started the field (the classics).
      2. CRITICAL: Identify key \"Recent Breakthroughs\" or \"State of the Art\" papers from the last 3-5 years (2020-2025).
      3. The list MUST be a 50/50 mix of history and modern state-of-the-art."

/-- The `switch (config.focus)` of `researchTopic`: `'classic'` and
`'recent'` have cases, everything else falls through to the
`'balanced'`/`default` block. -/
def focusInstruction (focus : String) : String :=
  if focus = "classic" then classicFocusBlock
  else if focus = "recent" then recentFocusBlock
  else balancedFocusBlock

/-- The discovery stage's system instruction (lines 60–85), with
`targetLanguage = languageNames[config.language]` interpolated (an
unrecognized language interpolates as the text `undefined`). -/
def researchSystemInstruction (cfg : ResearchConfig) : String :=
  let targetLanguage := jsInterp (languageNames cfg.language)
  "You are an expert academic researcher and historian of science. 
  Your goal is to research a specific concept, method, or field provided by the user.
  
  IMPORTANT LANGUAGE REQUIREMENT:
  The user has requested the output in " ++ targetLanguage ++ ".
  - The \"summary\", \"ai_summary\", and \"significance\" fields MUST be written in " ++ targetLanguage ++ ".
  - The \"title\", \"authors\", and \"journal\" should generally remain in their original language (usually English for science) unless there is a standard translation.

  STRICT PAPER SELECTION CRITERIA:
  1. ARTICLE TYPE: 
     - Select ONLY original \"Research Articles\" (Primary Research).
     - STRICTLY EXCLUDE \"Review Articles\" (systematic reviews, literature reviews).
     - STRICTLY EXCLUDE \"Letters\" (short communications, letters to the editor), \"Editorials\", and \"Perspectives\".
  
  2. QUALITY & IMPACT:
     - Prioritize papers published in top-tier, high-impact journals (e.g., Nature, Science, Cell, PNAS, or top conferences/journals specific to the field).
     - Prioritize papers with high citation counts relative to their publication year.
     - Use your academic judgment to select papers that represent true milestones in scientific progress.
  
  " ++ focusInstruction cfg.focus ++ "
  
  4. Summarize the historical development and evolution of the field in " ++ targetLanguage ++ ".
  5. Explain the significance of each selected paper in " ++ targetLanguage ++ ".
  6. Create a visual description for a timeline that represents this evolution.
  
  Return the output in strictly valid JSON format. Do not include markdown code blocks if possible, just the raw JSON string."

/-! ### Generation stages (geminiService.ts)

The model transport is an external collaborator; one invocation's outcome is
an input to the stage: either a thrown transport error or a response whose
`.text` is a string or `undefined`. -/

inductive ModelResponse where
  | transportError : ModelResponse
  | ok : Option String → ModelResponse

inductive RError where
  | apiKeyMissing : RError
  | transport : RError
  | noResponse : RError
  | malformedOutput : RError
deriving DecidableEq, Repr

/-- The recovery step of the discovery stage:
`JSON.parse(cleanJson(text))`, a `SyntaxError` becoming the
malformed-output error kind. -/
def recoverStructured (text : String) : Except RError Json :=
  match jsonParse (cleanJson text) with
  | some j => .ok j
  | none => .error .malformedOutput

/-- Model of `researchTopic` (lines 18–136): missing key throws; a transport error is
rethrown; `if (!text) throw`; otherwise `JSON.parse(cleanJson(text))`, whose
`SyntaxError` is rethrown (`MalformedOutput`); on success the parsed value is
returned (cast, unvalidated, to `ResearchResult`). -/
def researchTopic (apiKey : Bool) (resp : ModelResponse) : Except RError Json :=
  if !apiKey then .error .apiKeyMissing
  else
    match resp with
    | .transportError => .error .transport
    | .ok t =>
        if jsFalsy t then .error .noResponse
        else recoverStructured (t.getD "")

/-- Model of `generateLiteratureReview` (lines 138–235): missing key throws, transport
errors are rethrown, and otherwise the stage returns
`response.text || "Failed to generate literature review."` — an empty or
absent text yields the fallback string, not a failure. -/
def generateLiteratureReview (apiKey : Bool) (resp : ModelResponse)
    (result : ResearchResult) (language : String) (citationStyle : String) :
    Except RError String :=
  if !apiKey then .error .apiKeyMissing
  else
    match resp with
    | .transportError => .error .transport
    | .ok t => .ok (jsOr t "Failed to generate literature review.")

/-! ### Context builder (geminiService.ts lines 300–331) -/

/-- One line of the article enumeration:
`${i+1}. "${a.title}" (${a.publication_date}) by ${a.authors}. Journal:
${a.journal || 'Unknown'}. Significance: ${a.significance}. Summary:
${a.ai_summary}`. -/
def articleLine (i : Nat) (a : Article) : String :=
  toString (i + 1) ++ ". \"" ++ a.title ++ "\" (" ++ a.publication_date ++
  ") by " ++ a.authors ++ ". Journal: " ++ jsOr a.journal "Unknown" ++
  ". Significance: " ++ a.significance ++ ". Summary: " ++ a.ai_summary

/-- Model of `Array.prototype.map` with the element index, starting at `i`. -/
def mapIdx (f : Nat → Article → String) : Nat → List Article → List String
  | _, [] => []
  | i, a :: rest => f i a :: mapIdx f (i + 1) rest

/-- Model of `Array.prototype.join('\n')`. -/
def joinNL : List String → String
  | [] => ""
  | [s] => s
  | s :: rest => s ++ "\n" ++ joinNL rest

/-- The `contextString` template of `getResearchChatSession`. -/
def contextString (context : ResearchResult) : String :=
  "\n    TOPIC: " ++ context.topic ++
  "\n    \n    SUMMARY:\n    " ++ context.summary ++
  "\n    \n    KEY ARTICLES (Foundational & Recent):\n    " ++
  joinNL (mapIdx articleLine 0 context.articles) ++
  "\n  "

/-! ### App state and History Store mutations (`src/App.tsx`)

React component state plus the `localStorage` blob become one record; each
handler is a function on it.  A possible `localStorage.setItem` failure
(e.g. quota) is an input flag `setThrows`; each handler returns the new
state together with whether an exception escaped to the caller. -/

structure AppState where
  historyItems : List HistoryItem
  /-- The serialized blob under the `deep_research_history` key. -/
  storage : Option (List HistoryItem)
  result : Option Json
  timelineImage : Option String
  literatureReview : Option String
  currentResearchId : Option String
  error : Option String
deriving Repr

/-- The list transformation inside `saveToHistory` (App.tsx line 39):
`[newItem, ...historyItems].slice(0, 15)`. -/
def saveList (newItem : HistoryItem) (historyItems : List HistoryItem) :
    List HistoryItem :=
  (newItem :: historyItems).take 15

/-- Model of `saveToHistory` (lines 38–46): prepend-and-truncate, update the in-memory
state, then attempt the persistence write inside `try/catch` — a failure is
only logged. -/
def saveToHistory (setThrows : Bool) (st : AppState) (newItem : HistoryItem) :
    AppState × Bool :=
  let updatedHistory := saveList newItem st.historyItems
  let st1 := { st with historyItems := updatedHistory }
  if setThrows then (st1, false)
  else ({ st1 with storage := some updatedHistory }, false)

/-- A `Partial<HistoryItem>` as actually passed by the source: either a new
timeline image or a new literature review. -/
inductive HUpdate where
  | timelineImage : String → HUpdate
  | literatureReview : String → HUpdate
deriving DecidableEq, Repr

/-- Model of `{ ...item, ...updates }` for the updates the source passes. -/
def applyUpdate : HUpdate → HistoryItem → HistoryItem
  | .timelineImage url, item => { item with timelineImage := some url }
  | .literatureReview review, item => { item with literatureReview := some review }

/-- The list transformation inside `updateHistoryItem` (lines 49–51):
`historyItems.map(item => item.id === id ? { ...item, ...updates } : item)`. -/
def updateList (historyItems : List HistoryItem) (id : String) (u : HUpdate) :
    List HistoryItem :=
  historyItems.map (fun item => if item.id = id then applyUpdate u item else item)

/-- Model of `updateHistoryItem` (lines 48–58): map-update, in-memory state, then the
guarded persistence write. -/
def updateHistoryItem (setThrows : Bool) (st : AppState) (id : String)
    (u : HUpdate) : AppState × Bool :=
  let updatedHistory := updateList st.historyItems id u
  let st1 := { st with historyItems := updatedHistory }
  if setThrows then (st1, false)
  else ({ st1 with storage := some updatedHistory }, false)

/-- Model of `deleteHistoryItem` (lines 60–72): filter, in-memory state, then an
UNguarded `localStorage.setItem` — if it throws, the exception escapes and
the active-session clearing below it is skipped. -/
def deleteHistoryItem (setThrows : Bool) (st : AppState) (id : String) :
    AppState × Bool :=
  let updatedHistory := st.historyItems.filter (fun item => item.id ≠ id)
  let st1 := { st with historyItems := updatedHistory }
  if setThrows then (st1, true)
  else
    let st2 := { st1 with storage := some updatedHistory }
    if st2.currentResearchId = some id then
      ({ st2 with result := none, timelineImage := none,
                  literatureReview := none, currentResearchId := none }, false)
    else (st2, false)

/-- Model of `handleSearch` (lines 92–127): guard on the trimmed query, reset the
derived view state, run the discovery stage; on failure only set the error
message; on success set the result, mint the session and `saveToHistory` it.
`now` stands for `Date.now()`. -/
def handleSearch (setThrows apiKey : Bool) (resp : ModelResponse) (now : Nat)
    (query : String) (cfg : ResearchConfig) (st : AppState) : AppState :=
  if jsTrim query = "" then st
  else
    let st1 := { st with error := none, result := none, timelineImage := none,
                         literatureReview := none, currentResearchId := none }
    match researchTopic apiKey resp with
    | .error _ =>
        { st1 with
          error := some "Failed to research topic. Please check your API key and try again." }
    | .ok data =>
        let newItem : HistoryItem :=
          { id := toString now, timestamp := now, topic := query, result := data,
            timelineImage := none, literatureReview := none, config := cfg }
        let st2 :=
          { st1 with
            result := some data
            currentResearchId := some (toString now) }
        (saveToHistory setThrows st2 newItem).1

/-- Model of `handleTimelineGenerated` (lines 129–134): set the view image, and if a
session is active (truthy id) update it in place. -/
def handleTimelineGenerated (setThrows : Bool) (url : String) (st : AppState) :
    AppState :=
  let st1 := { st with timelineImage := some url }
  match st1.currentResearchId with
  | some id =>
      if id = "" then st1
      else (updateHistoryItem setThrows st1 id (.timelineImage url)).1
  | none => st1

/-- Model of `handleReviewGenerated` (lines 136–141). -/
def handleReviewGenerated (setThrows : Bool) (review : String) (st : AppState) :
    AppState :=
  let st1 := { st with literatureReview := some review }
  match st1.currentResearchId with
  | some id =>
      if id = "" then st1
      else (updateHistoryItem setThrows st1 id (.literatureReview review)).1
  | none => st1

/-! ### Shared concrete fixtures and helper lemmas -/

/-- A concrete session used by witnesses and counterexamples. -/
def mkItem (n : Nat) : HistoryItem :=
  { id := toString n, timestamp := n, topic := "topic " ++ toString n,
    result := .obj [("topic", .str ("topic " ++ toString n))],
    timelineImage := none, literatureReview := none,
    config := { focus := "balanced", count := 10, language := "en" } }

/-- A concrete app state used by witnesses and counterexamples. -/
def sampleState : AppState :=
  { historyItems := [mkItem 1, mkItem 2, mkItem 3],
    storage := some [mkItem 1, mkItem 2, mkItem 3],
    result := some (mkItem 1).result,
    timelineImage := some "img1", literatureReview := some "rev1",
    currentResearchId := some "1", error := none }

/-- A concrete discovery result used by witnesses and counterexamples. -/
def sampleResult : ResearchResult :=
  { topic := "CRISPR", summary := "How the field developed.",
    suggestedVisualPrompt := "timeline",
    articles :=
      [{ title := "A programmable dual-RNA-guided DNA endonuclease",
         authors := "Jinek et al.", journal := some "Science",
         publication_date := "2012-08-17", ai_summary := "Cas9 mechanism.",
         significance := "Founded genome editing.", url := some "u1" },
       { title := "Multiplex genome engineering using CRISPR/Cas systems",
         authors := "Cong et al.", journal := none,
         publication_date := "2013-02-15", ai_summary := "Editing in cells.",
         significance := "First mammalian editing.", url := none }] }

theorem toList_append (a b : String) : (a ++ b).toList = a.toList ++ b.toList := by
  simp [String.toList, String.data_append]

theorem strInfix_extend_right (s a b : String)
    (h : s.toList <:+: a.toList) : s.toList <:+: (a ++ b).toList := by
  rw [toList_append]
  exact h.trans (List.IsPrefix.isInfix (List.prefix_append a.toList b.toList))

theorem strInfix_extend_left (s a b : String)
    (h : s.toList <:+: b.toList) : s.toList <:+: (a ++ b).toList := by
  rw [toList_append]
  exact h.trans (List.IsSuffix.isInfix (List.suffix_append a.toList b.toList))

theorem strInfix_self_right (a s : String) : s.toList <:+: (a ++ s).toList :=
  strInfix_extend_left s a s (List.infix_refl _)

/-! ### C2 — History Store capacity invariant -/

/-- C2: inserting a new session prepends it (it becomes the head), keeps the
surviving prior sessions in order (the tail is the 14-element prefix of the
previous list), and bounds the length by `min (previous + 1) 15`; at
capacity 15 the oldest (last) entry is evicted and the count stays 15. -/
theorem saveList_capacity (newItem : HistoryItem) (hist : List HistoryItem) :
    (saveList newItem hist).head? = some newItem ∧
    (saveList newItem hist).tail = hist.take 14 ∧
    (saveList newItem hist).length = min (hist.length + 1) 15 ∧
    (hist.length = 15 →
      saveList newItem hist = newItem :: hist.dropLast ∧
      (saveList newItem hist).length = 15) := by
  unfold saveList
  rw [List.take_succ_cons]
  refine ⟨List.head?_cons, List.tail_cons, ?_, ?_⟩
  · simp only [List.length_cons, List.length_take]
    omega
  · intro h15
    have hdl : hist.dropLast = hist.take 14 := by
      rw [List.dropLast_eq_take, h15]
    rw [hdl]
    refine ⟨rfl, ?_⟩
    simp [List.length_take, h15]

/-- Witness for C2 at a concrete 15-element store. -/
theorem saveList_capacity_witness :
    ((List.range 15).map mkItem).length = 15 ∧
    (saveList (mkItem 99) ((List.range 15).map mkItem) =
        mkItem 99 :: ((List.range 15).map mkItem).dropLast ∧
      (saveList (mkItem 99) ((List.range 15).map mkItem)).length = 15) :=
  ⟨rfl, (saveList_capacity (mkItem 99) ((List.range 15).map mkItem)).2.2.2 rfl⟩

/-! ### C3 — persistence-write failures and the mutations -/

/-- C3 (amended): for `saveToHistory` and `updateHistoryItem` a failing
persistence write is caught — the in-memory update completes and nothing
propagates; `deleteHistoryItem`'s write is not guarded, so there the
exception escapes exactly when the write fails (the in-memory list update
still completes first). -/
theorem persistenceFailure_handling (setThrows : Bool) (st : AppState)
    (newItem : HistoryItem) (id : String) (u : HUpdate) :
    (saveToHistory setThrows st newItem).2 = false ∧
    (saveToHistory setThrows st newItem).1.historyItems =
      saveList newItem st.historyItems ∧
    (updateHistoryItem setThrows st id u).2 = false ∧
    (updateHistoryItem setThrows st id u).1.historyItems =
      updateList st.historyItems id u ∧
    (deleteHistoryItem setThrows st id).2 = setThrows ∧
    (deleteHistoryItem setThrows st id).1.historyItems =
      st.historyItems.filter (fun item => item.id ≠ id) := by
  unfold saveToHistory updateHistoryItem deleteHistoryItem
  cases setThrows <;> simp <;> split <;> simp

/-- Counterexample for C3 as stated: deleting while the persistence write
fails throws to the caller (and skips the active-session clearing), even
though the in-memory list update was applied. -/
theorem persistenceFailure_counterexample :
    (deleteHistoryItem true sampleState "1").2 = true ∧
    (deleteHistoryItem true sampleState "1").1.historyItems =
      [mkItem 2, mkItem 3] ∧
    (deleteHistoryItem true sampleState "1").1.result = some (mkItem 1).result ∧
    (deleteHistoryItem true sampleState "1").1.currentResearchId = some "1" :=
  ⟨rfl, rfl, rfl, rfl⟩

/-! ### C10 — updating an absent id is a no-op -/

/-- C10: if the id occurs in no stored session, the partial update maps every
session to itself, so the stored collection is unchanged. -/
theorem updateList_absent_id (setThrows : Bool) (st : AppState) (id : String)
    (u : HUpdate) (h : id ∉ st.historyItems.map HistoryItem.id) :
    updateList st.historyItems id u = st.historyItems ∧
    (updateHistoryItem setThrows st id u).1.historyItems = st.historyItems := by
  have hmap : updateList st.historyItems id u = st.historyItems := by
    unfold updateList
    have : ∀ item ∈ st.historyItems,
        (if item.id = id then applyUpdate u item else item) = item := by
      intro item hmem
      have : item.id ≠ id := by
        intro heq
        exact h (heq ▸ List.mem_map_of_mem HistoryItem.id hmem)
      simp [this]
    rw [List.map_congr_left this, List.map_id']
  refine ⟨hmap, ?_⟩
  unfold updateHistoryItem
  cases setThrows <;> simp [hmap]

/-- Witness for C10 at a concrete store and an unknown id. -/
theorem updateList_absent_id_witness :
    updateList sampleState.historyItems "77" (.timelineImage "img") =
      sampleState.historyItems ∧
    (updateHistoryItem false sampleState "77"
        (.timelineImage "img")).1.historyItems = sampleState.historyItems :=
  updateList_absent_id false sampleState "77" (.timelineImage "img") (by decide)

/-! ### C4 — partial-update frame property -/

/-- C4: a partial update (attaching a timeline image or a literature review)
rewrites only the sessions whose id is addressed, leaves every other session
unchanged at its position, preserves the list length, and on the addressed
session changes only the updated artifact field — id, timestamp, topic,
config and discovery result are untouched. -/
theorem updateList_frame (setThrows : Bool) (st : AppState) (id : String)
    (u : HUpdate) :
    (updateHistoryItem setThrows st id u).1.historyItems =
      updateList st.historyItems id u ∧
    (updateList st.historyItems id u).length = st.historyItems.length ∧
    (∀ (k : Nat) (item : HistoryItem),
        st.historyItems[k]? = some item → item.id ≠ id →
        (updateList st.historyItems id u)[k]? = some item) ∧
    (∀ (k : Nat) (item : HistoryItem),
        st.historyItems[k]? = some item → item.id = id →
        (updateList st.historyItems id u)[k]? = some (applyUpdate u item)) ∧
    (∀ item, (applyUpdate u item).id = item.id ∧
      (applyUpdate u item).timestamp = item.timestamp ∧
      (applyUpdate u item).topic = item.topic ∧
      (applyUpdate u item).config = item.config ∧
      (applyUpdate u item).result = item.result) := by
  refine ⟨?_, ?_, ?_, ?_, ?_⟩
  · unfold updateHistoryItem
    cases setThrows <;> simp
  · unfold updateList
    exact List.length_map _ _
  · intro k item hk hne
    unfold updateList
    rw [List.getElem?_map, hk]
    simp [hne]
  · intro k item hk heq
    unfold updateList
    rw [List.getElem?_map, hk]
    simp [heq]
  · intro item
    cases u <;> simp [applyUpdate]

/-- Witness for C4 at a concrete store: updating session "2" with a timeline
image leaves session "1" in place and rewrites exactly session "2". -/
theorem updateList_frame_witness :
    (updateList sampleState.historyItems "2" (.timelineImage "img"))[0]? =
      some (mkItem 1) ∧
    (updateList sampleState.historyItems "2" (.timelineImage "img"))[1]? =
      some (applyUpdate (.timelineImage "img") (mkItem 2)) :=
  ⟨(updateList_frame false sampleState "2" (.timelineImage "img")).2.2.1 0
      (mkItem 1) rfl (by decide),
   (updateList_frame false sampleState "2" (.timelineImage "img")).2.2.2.1 1
      (mkItem 2) rfl rfl⟩

/-! ### C8 — delete semantics -/

/-- C8: on the normal path (the persistence write does not throw) deleting an
id removes exactly the sessions with that id, keeps the remaining order (the
result is a sublist), does not throw, and clears the active-session-derived
view state exactly when the deleted id is the active one. -/
theorem deleteHistoryItem_spec (st : AppState) (id : String) :
    (deleteHistoryItem false st id).2 = false ∧
    (deleteHistoryItem false st id).1.historyItems =
      st.historyItems.filter (fun item => item.id ≠ id) ∧
    List.Sublist (deleteHistoryItem false st id).1.historyItems
      st.historyItems ∧
    (∀ x, x ∈ (deleteHistoryItem false st id).1.historyItems ↔
        x ∈ st.historyItems ∧ x.id ≠ id) ∧
    (st.currentResearchId = some id →
      (deleteHistoryItem false st id).1.result = none ∧
      (deleteHistoryItem false st id).1.timelineImage = none ∧
      (deleteHistoryItem false st id).1.literatureReview = none ∧
      (deleteHistoryItem false st id).1.currentResearchId = none) ∧
    (st.currentResearchId ≠ some id →
      (deleteHistoryItem false st id).1.result = st.result ∧
      (deleteHistoryItem false st id).1.timelineImage = st.timelineImage ∧
      (deleteHistoryItem false st id).1.literatureReview = st.literatureReview ∧
      (deleteHistoryItem false st id).1.currentResearchId =
        st.currentResearchId) := by
  by_cases h : st.currentResearchId = some id <;>
    simp [deleteHistoryItem, h, List.filter_sublist, List.mem_filter]

/-- Witness for C8: deleting the active session "1" clears the derived view
state; deleting the absent id "99" leaves it untouched. -/
theorem deleteHistoryItem_spec_witness :
    ((deleteHistoryItem false sampleState "1").1.result = none ∧
      (deleteHistoryItem false sampleState "1").1.timelineImage = none ∧
      (deleteHistoryItem false sampleState "1").1.literatureReview = none ∧
      (deleteHistoryItem false sampleState "1").1.currentResearchId = none) ∧
    ((deleteHistoryItem false sampleState "99").1.result = sampleState.result ∧
      (deleteHistoryItem false sampleState "99").1.timelineImage =
        sampleState.timelineImage ∧
      (deleteHistoryItem false sampleState "99").1.literatureReview =
        sampleState.literatureReview ∧
      (deleteHistoryItem false sampleState "99").1.currentResearchId =
        sampleState.currentResearchId) :=
  ⟨(deleteHistoryItem_spec sampleState "1").2.2.2.2.1 rfl,
   (deleteHistoryItem_spec sampleState "99").2.2.2.2.2 (by decide)⟩

/-! ### C6 — empty-response handling -/

/-- C6 (amended): an empty or absent response text fails the discovery stage
with the empty-response error kind; the literature-review stage does not fail
on empty text — it substitutes the fixed placeholder string as its returned
artifact. -/
theorem emptyResponse_handling (r : ResearchResult) (lang style : String) :
    researchTopic true (.ok none) = .error .noResponse ∧
    researchTopic true (.ok (some "")) = .error .noResponse ∧
    generateLiteratureReview true (.ok none) r lang style =
      .ok "Failed to generate literature review." ∧
    generateLiteratureReview true (.ok (some "")) r lang style =
      .ok "Failed to generate literature review." :=
  ⟨rfl, rfl, rfl, rfl⟩

/-- Counterexample for C6 as stated: on empty text the literature-review
stage returns an artifact (the placeholder string) instead of failing. -/
theorem emptyResponse_counterexample :
    generateLiteratureReview true (.ok (some "")) sampleResult "en" "apa" =
      .ok "Failed to generate literature review." := rfl

/-! ### C7 — configuration compiler totality -/

/-- C7 (amended): focus compilation is total — `classic` and `recent` select
their blocks and every other value (unrecognized included) falls back to the
balanced block, the three blocks being pairwise distinct; language lookup
maps exactly the three recognized codes to names, and an unrecognized code
yields no name (`undefined`), which interpolates into the instruction text as
the literal text `undefined` rather than a default language name. -/
theorem configCompiler_totality (focus lang : String) :
    (focus = "classic" → focusInstruction focus = classicFocusBlock) ∧
    (focus = "recent" → focusInstruction focus = recentFocusBlock) ∧
    (focus ≠ "classic" → focus ≠ "recent" →
      focusInstruction focus = balancedFocusBlock) ∧
    (classicFocusBlock ≠ recentFocusBlock ∧
      classicFocusBlock ≠ balancedFocusBlock ∧
      recentFocusBlock ≠ balancedFocusBlock) ∧
    (languageNames "en" = some "English" ∧
      languageNames "zh" = some "Chinese (Simplified)" ∧
      languageNames "ja" = some "Japanese") ∧
    (lang ≠ "en" → lang ≠ "zh" → lang ≠ "ja" →
      languageNames lang = none ∧
      jsInterp (languageNames lang) = "undefined") := by
  refine ⟨?_, ?_, ?_, ⟨?_, ?_, ?_⟩, ⟨rfl, rfl, rfl⟩, ?_⟩
  · intro h; simp [focusInstruction, h]
  · intro h; simp [focusInstruction, h]
  · intro h1 h2; simp [focusInstruction, h1, h2]
  · decide
  · decide
  · decide
  · intro h1 h2 h3
    have : languageNames lang = none := by simp [languageNames, h1, h2, h3]
    exact ⟨this, by rw [this]; rfl⟩

/-- Witness for C7 at an unrecognized focus and language. -/
theorem configCompiler_totality_witness :
    focusInstruction "other" = balancedFocusBlock ∧
    languageNames "fr" = none ∧
    jsInterp (languageNames "fr") = "undefined" :=
  ⟨(configCompiler_totality "other" "fr").2.2.1 (by decide) (by decide),
   (configCompiler_totality "other" "fr").2.2.2.2.2 (by decide) (by decide)
     (by decide)⟩

/-- Counterexample for C7 as stated: for the unrecognized language code "fr"
no default natural-language name is substituted — the lookup is `undefined`
and the compiled discovery instruction contains the literal text
`undefined`. -/
theorem configCompiler_counterexample :
    languageNames "fr" = none ∧
    jsInterp (languageNames "fr") = "undefined" ∧
    "undefined".toList <:+: (researchSystemInstruction
      { focus := "balanced", count := 10, language := "fr" }).toList :=
  ⟨rfl, rfl, by decide⟩

/-! ### C1 — structured-output recovery -/

/-- C1 (amended): when the first brace is at or before the last brace,
recovery parses exactly that brace-bounded span; otherwise the whole trimmed
text is the candidate and recovery returns the result of parsing it — the
malformed-output failure exactly when the trimmed text is not itself valid
JSON (a brace-free text that is valid JSON, such as a bare number, parses
successfully instead of failing). -/
theorem cleanJson_recovery (text : String) :
    (∀ (s e : Nat), firstIdx lbrace text.toList = some s →
        lastIdx rbrace text.toList = some e → s ≤ e →
        cleanJson text = String.mk ((text.toList.drop s).take (e + 1 - s)) ∧
        recoverStructured text =
          (match jsonParse (String.mk ((text.toList.drop s).take (e + 1 - s))) with
           | some j => Except.ok j
           | none => Except.error RError.malformedOutput)) ∧
    ((firstIdx lbrace text.toList = none ∨ lastIdx rbrace text.toList = none ∨
        (∃ (s e : Nat), firstIdx lbrace text.toList = some s ∧
          lastIdx rbrace text.toList = some e ∧ e < s)) →
      cleanJson text = jsTrim text ∧
      (recoverStructured text = .error .malformedOutput ↔
        jsonParse (jsTrim text) = none) ∧
      (∀ j, jsonParse (jsTrim text) = some j →
        recoverStructured text = .ok j)) := by
  constructor
  · intro s e hs he hle
    have hclean : cleanJson text =
        String.mk ((text.toList.drop s).take (e + 1 - s)) := by
      simp only [cleanJson, hs, he]
      rw [if_neg (by omega : ¬s > e)]
    refine ⟨hclean, ?_⟩
    unfold recoverStructured
    rw [hclean]
  · intro h
    have hclean : cleanJson text = jsTrim text := by
      simp only [String.toList] at h
      cases hf : firstIdx lbrace text.data with
      | none => simp [cleanJson, hf]
      | some s =>
        cases hl : lastIdx rbrace text.data with
        | none => simp [cleanJson, hf, hl]
        | some e =>
          rcases h with h | h | ⟨s', e', hs', he', hlt⟩
          · rw [hf] at h; simp at h
          · rw [hl] at h; simp at h
          · rw [hf] at hs'; rw [hl] at he'
            have hse : s = s' := Option.some.inj hs'
            have hee : e = e' := Option.some.inj he'
            simp only [cleanJson, String.toList, hf, hl]
            rw [if_pos (by omega : e < s)]
    refine ⟨hclean, ?_, ?_⟩
    · unfold recoverStructured
      rw [hclean]
      cases hp : jsonParse (jsTrim text) <;> simp
    · intro j hj
      unfold recoverStructured
      rw [hclean, hj]

/-- Witness for C1: a fenced response recovers the brace-bounded object; a
brace-free refusal falls back to the trimmed text and fails to parse. -/
theorem cleanJson_recovery_witness :
    cleanJson "Sure! ```json\n\x7b\"topic\":\"x\"\x7d\n```" =
      "\x7b\"topic\":\"x\"\x7d" ∧
    recoverStructured "Sure! ```json\n\x7b\"topic\":\"x\"\x7d\n```" =
      .ok (.obj [("topic", .str "x")]) ∧
    cleanJson "I cannot help." = "I cannot help." ∧
    recoverStructured "I cannot help." = .error .malformedOutput := by
  have h1 := (cleanJson_recovery "Sure! ```json\n\x7b\"topic\":\"x\"\x7d\n```").1
    14 26 rfl rfl (by omega)
  have h2 := (cleanJson_recovery "I cannot help.").2 (Or.inl rfl)
  exact ⟨h1.1, h1.2, h2.1, h2.2.1.mpr rfl⟩

/-- Counterexample for C1 as stated: the brace-free response text `42` is
itself valid JSON, so recovery (and with it the discovery stage) returns a
parsed value instead of failing with the malformed-output error. -/
theorem cleanJson_recovery_counterexample :
    firstIdx lbrace "42".toList = none ∧
    recoverStructured "42" = .ok (.num "42") ∧
    researchTopic true (.ok (some "42")) = .ok (.num "42") :=
  ⟨rfl, rfl, rfl⟩

/-! ### C5 — discovery-stage atomicity -/

/-- C5: if the discovery call fails for any reason, `handleSearch` leaves the
history list exactly as it was (no session is created); a session is saved
(prepended, capacity-bounded) exactly when discovery succeeds with a parsed
result. -/
theorem handleSearch_atomic (setThrows apiKey : Bool) (resp : ModelResponse)
    (now : Nat) (query : String) (cfg : ResearchConfig) (st : AppState) :
    (∀ e, researchTopic apiKey resp = .error e →
        (handleSearch setThrows apiKey resp now query cfg st).historyItems =
          st.historyItems) ∧
    (∀ data, researchTopic apiKey resp = .ok data → jsTrim query ≠ "" →
        (handleSearch setThrows apiKey resp now query cfg st).historyItems =
          saveList
            { id := toString now, timestamp := now, topic := query,
              result := data, timelineImage := none, literatureReview := none,
              config := cfg } st.historyItems) := by
  constructor
  · intro e he
    by_cases hq : jsTrim query = ""
    · simp [handleSearch, hq]
    · simp [handleSearch, hq, he]
  · intro data hd hq
    simp only [handleSearch, hq, if_neg hq, hd]
    cases setThrows <;> simp [saveToHistory]

/-- The configuration used by concrete scenarios. -/
def sampleConfig : ResearchConfig :=
  { focus := "balanced", count := 10, language := "en" }

/-- Witness for C5: an empty response creates no session; a successful
discovery prepends exactly one new session. -/
theorem handleSearch_atomic_witness :
    (handleSearch false true (.ok none) 5 "CRISPR" sampleConfig
        sampleState).historyItems = sampleState.historyItems ∧
    (handleSearch false true (.ok (some "\x7b\"topic\":\"x\"\x7d")) 5 "CRISPR"
        sampleConfig sampleState).historyItems =
      saveList
        { id := "5", timestamp := 5, topic := "CRISPR",
          result := .obj [("topic", .str "x")], timelineImage := none,
          literatureReview := none, config := sampleConfig }
        sampleState.historyItems :=
  ⟨(handleSearch_atomic false true (.ok none) 5 "CRISPR" sampleConfig
      sampleState).1 .noResponse rfl,
   (handleSearch_atomic false true (.ok (some "\x7b\"topic\":\"x\"\x7d")) 5
      "CRISPR" sampleConfig sampleState).2 (.obj [("topic", .str "x")]) rfl
      (by decide)⟩

/-! ### C9 — context builder -/

theorem mapIdx_length (f : Nat → Article → String) :
    ∀ (i : Nat) (l : List Article), (mapIdx f i l).length = l.length := by
  intro i l
  induction l generalizing i with
  | nil => rfl
  | cons a rest ih => simp [mapIdx, ih]

theorem mapIdx_getElem? (f : Nat → Article → String) :
    ∀ (l : List Article) (i k : Nat),
      (mapIdx f i l)[k]? = (l[k]?).map (fun a => f (i + k) a) := by
  intro l
  induction l with
  | nil => intro i k; simp [mapIdx]
  | cons a rest ih =>
    intro i k
    cases k with
    | zero => simp [mapIdx]
    | succ k' =>
      simp only [mapIdx, List.getElem?_cons_succ]
      rw [ih (i + 1) k']
      have h : i + 1 + k' = i + (k' + 1) := by omega
      rw [h]

/-- Any element of the joined list occurs verbatim inside the join. -/
theorem joinNL_infix_of_mem (s : String) :
    ∀ (ls : List String), s ∈ ls → s.toList <:+: (joinNL ls).toList := by
  intro ls
  induction ls with
  | nil => intro h; cases h
  | cons a rest ih =>
    intro h
    cases rest with
    | nil =>
      rcases List.mem_singleton.mp h with rfl
      exact List.infix_refl _
    | cons b t =>
      rcases List.mem_cons.mp h with rfl | hmem
      · exact strInfix_extend_right s (s ++ "\n") (joinNL (b :: t))
          (strInfix_extend_right s s "\n" (List.infix_refl _))
      · exact strInfix_extend_left s (a ++ "\n") (joinNL (b :: t)) (ih hmem)

/-- C9: the built context contains the topic and the narrative summary; the
article enumeration mirrors the article list — same length, and the k-th
entry is exactly the formatted line carrying the 1-based index `k+1` together
with the k-th article's title, date, authors, journal-or-Unknown,
significance and summary; each such line occurs verbatim in the context; for
zero articles the enumeration is empty. -/
theorem contextString_enumeration (ctx : ResearchResult) :
    ctx.topic.toList <:+: (contextString ctx).toList ∧
    ctx.summary.toList <:+: (contextString ctx).toList ∧
    (mapIdx articleLine 0 ctx.articles).length = ctx.articles.length ∧
    (∀ k : Nat, (mapIdx articleLine 0 ctx.articles)[k]? =
        (ctx.articles[k]?).map (fun a => articleLine k a)) ∧
    (∀ (k : Nat) (a : Article), ctx.articles[k]? = some a →
        (articleLine k a).toList <:+: (contextString ctx).toList) ∧
    (ctx.articles = [] → joinNL (mapIdx articleLine 0 ctx.articles) = "") := by
  refine ⟨?_, ?_, mapIdx_length articleLine 0 ctx.articles, ?_, ?_, ?_⟩
  · exact strInfix_extend_right _ _ _ (strInfix_extend_right _ _ _
      (strInfix_extend_right _ _ _ (strInfix_extend_right _ _ _
        (strInfix_extend_right _ _ _
          (strInfix_self_right "\n    TOPIC: " ctx.topic)))))
  · exact strInfix_extend_right _ _ _ (strInfix_extend_right _ _ _
      (strInfix_extend_right _ _ _
        (strInfix_self_right ("\n    TOPIC: " ++ ctx.topic ++
          "\n    \n    SUMMARY:\n    ") ctx.summary)))
  · intro k
    have := mapIdx_getElem? articleLine ctx.articles 0 k
    simpa using this
  · intro k a hk
    have hline : (mapIdx articleLine 0 ctx.articles)[k]? =
        some (articleLine k a) := by
      rw [mapIdx_getElem? articleLine ctx.articles 0 k, hk]
      simp
    have hmem := List.getElem?_mem hline
    have hjoin := joinNL_infix_of_mem (articleLine k a) _ hmem
    exact strInfix_extend_right _ _ _ (strInfix_extend_left _ _ _ hjoin)
  · intro h
    rw [h]
    rfl

/-- The second article of `sampleResult`, named for the C9 witness. -/
def sampleArticle2 : Article :=
  { title := "Multiplex genome engineering using CRISPR/Cas systems"
    authors := "Cong et al."
    journal := none
    publication_date := "2013-02-15"
    ai_summary := "Editing in cells."
    significance := "First mammalian editing."
    url := none }

/-- Witness for C9 at a concrete two-article discovery result. -/
theorem contextString_enumeration_witness :
    (articleLine 1 sampleArticle2).toList <:+:
      (contextString sampleResult).toList :=
  (contextString_enumeration sampleResult).2.2.2.2.1 1 sampleArticle2 rfl
